import Mathlib

/-!
Verification of the consensus-log messaging layer and agent handshake
protocol of the Circularity Nexus backend.

The definitions below are a shallow embedding of the Python modules

  * `circularity_nexus/blockchain/hcs_service.py`      (class `HCSService`)
  * `circularity_nexus/blockchain/consensus_manager.py` (class `ConsensusManager`)
  * `circularity_nexus/blockchain/hcs10_agent.py`       (class `HCS10Agent`)
  * `circularity_nexus/core/exceptions.py`             (exception taxonomy)

Conventions of the embedding:

  * Python dicts are association lists `List (String × α)` with the
    functions `lookupD` / `insertD` / `eraseD` / `hasKeyD` mirroring
    `d[k]` lookup, `d[k] = v` assignment, `del d[k]` and `k in d`.
  * Values produced by `json.loads` are modelled by the inductive `JVal`
    (null, bool, string, integer, object); a payload whose decoding
    raises `json.JSONDecodeError` is represented as `Option.none`.
  * Raised exceptions are values of `PyErr`; a fallible operation
    returns `Except PyErr α`.  The classes of `exceptions.py` keep their
    names (`validationError`, `blockchainError`); Python builtin
    exceptions that the code can hit (`AttributeError`, `KeyError`,
    `json.JSONDecodeError`) get their own constructors.  `pyStr` models
    `str(e)`: for the repository classes this is the `detail` string
    (see `CircularityNexusException.__init__`); for builtins the exact
    interpreter-generated text is irrelevant to every claim, so a fixed
    rendering is used (for `KeyError` the quotes Python prints around
    the key are omitted).
  * Calls into the external Hedera network are oracles passed as
    arguments: a `Net` record assigns transaction ids / sequence
    numbers to the successive network transactions of one call, and
    fallible network operations are passed in as `Except PyErr _`
    outcomes.  Each modelled method additionally returns the list of
    network submissions it performed, so that claims of the form
    "performs zero network calls" are statable.
-/

namespace CircularityNexus

/-! ### Python dict model -/

def lookupD {α : Type} : List (String × α) → String → Option α
  | [], _ => none
  | p :: rest, k => if p.1 = k then some p.2 else lookupD rest k

def insertD {α : Type} : List (String × α) → String → α → List (String × α)
  | [], k, v => [(k, v)]
  | p :: rest, k, v => if p.1 = k then (k, v) :: rest else p :: insertD rest k v

def eraseD {α : Type} : List (String × α) → String → List (String × α)
  | [], _ => []
  | p :: rest, k => if p.1 = k then eraseD rest k else p :: eraseD rest k

def hasKeyD {α : Type} (d : List (String × α)) (k : String) : Bool :=
  (lookupD d k).isSome

theorem lookupD_insertD_self {α : Type} (d : List (String × α)) (k : String) (v : α) :
    lookupD (insertD d k v) k = some v := by
  induction d with
  | nil => simp [insertD, lookupD]
  | cons p rest ih =>
      by_cases h : p.1 = k
      · simp [insertD, h, lookupD]
      · simp [insertD, h, lookupD, ih]

theorem lookupD_insertD_ne {α : Type} (d : List (String × α)) (k k' : String) (v : α)
    (h : k' ≠ k) : lookupD (insertD d k v) k' = lookupD d k' := by
  have h1 : ¬ (k = k') := fun hh => h hh.symm
  induction d with
  | nil => simp [insertD, lookupD, h1]
  | cons p rest ih =>
      by_cases hp : p.1 = k
      · have h2 : ¬ (p.1 = k') := by rw [hp]; exact h1
        simp [insertD, hp, lookupD, h1, h2]
      · by_cases hp' : p.1 = k'
        · simp [insertD, hp, hp', h, lookupD]
        · simp [insertD, hp, lookupD, hp', ih]

theorem lookupD_eraseD_self {α : Type} (d : List (String × α)) (k : String) :
    lookupD (eraseD d k) k = none := by
  induction d with
  | nil => simp [eraseD, lookupD]
  | cons p rest ih =>
      by_cases h : p.1 = k
      · simp [eraseD, h, ih]
      · simp [eraseD, h, lookupD, ih]

theorem eraseD_idem {α : Type} (d : List (String × α)) (k : String) :
    eraseD (eraseD d k) k = eraseD d k := by
  induction d with
  | nil => simp [eraseD]
  | cons p rest ih =>
      by_cases h : p.1 = k
      · simp [eraseD, h, ih]
      · simp [eraseD, h, ih]

/-! ### Exception model (`core/exceptions.py` plus the Python builtins the code hits) -/

inductive PyErr where
  | jsonDecodeError : PyErr
  | attributeError : PyErr
  | keyError (key : String) : PyErr
  | validationError (detail : String) : PyErr
  | blockchainError (detail : String) : PyErr
deriving DecidableEq

/-- Model of Python `str(e)`.  For the classes of `exceptions.py`,
`CircularityNexusException.__init__` calls `super().__init__(detail)`, so
`str(e)` is exactly the `detail` string.  For builtins a fixed rendering is
used (no claim depends on the interpreter text; for `KeyError` Python would
print the key wrapped in quotes, which are omitted here). -/
def pyStr : PyErr → String
  | .jsonDecodeError => "JSONDecodeError"
  | .attributeError => "AttributeError"
  | .keyError k => k
  | .validationError d => d
  | .blockchainError d => d

/-- Model of the `error_code` attribute set by `CircularityNexusException.__init__`
(explicit for the repository classes, class name for builtins, which have none). -/
def pyErrCode : PyErr → String
  | .jsonDecodeError => "JSONDecodeError"
  | .attributeError => "AttributeError"
  | .keyError _ => "KeyError"
  | .validationError _ => "VALIDATION_ERROR"
  | .blockchainError _ => "BLOCKCHAIN_ERROR"

/-! ### JSON value model (result of `json.loads`) -/

inductive JVal where
  | jnull : JVal
  | jbool (b : Bool) : JVal
  | jstr (s : String) : JVal
  | jnum (n : Int) : JVal
  | jobj (fields : List (String × JVal)) : JVal

/-- Python `value == some_string` where `value` came out of `json.loads` /
`dict.get`: true exactly when the value is that string. -/
def isStr : JVal → String → Bool
  | .jstr t, s => t == s
  | _, _ => false

/-- Python `value != self.account_id` where `self.account_id` is either
`None` or a string and `value` is a decoded JSON value (`JVal.jnull` stands
for Python `None`, which `dict.get` returns for a missing key). -/
def pyNeAccount (v : JVal) : Option String → Bool
  | none => match v with
      | .jnull => false
      | _ => true
  | some s => !(isStr v s)

/-! ### Log Client: `HCSService.submit_message` / `_submit_chunked_message` -/

/-- Network oracle: ids assigned by the external network to the successive
transactions executed during one call (`response.transactionId`,
`receipt.topicSequenceNumber`, `receipt.consensusTimestamp`,
`receipt.topicRunningHash`). -/
structure Net where
  txId : Nat → String
  seqNum : Nat → Nat
  consTs : Nat → Option String
  runHash : Nat → Option String

/-- One `TopicMessageSubmitTransaction` executed against the network:
target topic, message bytes, transaction memo. -/
structure TxSubmission where
  topic : String
  payload : List Nat
  memo : Option String

/-- The per-chunk entry of the `chunks` list in the result of
`_submit_chunked_message`. -/
structure ChunkEntry where
  chunk_number : Nat
  transaction_id : String
  sequence_number : Nat

/-- Result dict of `_submit_chunked_message`. -/
structure ChunkedResult where
  topic_id : String
  message_size : Nat
  total_chunks : Nat
  initial_transaction_id : Option String
  chunks : List ChunkEntry
  status : String

/-- Result dict of the single-message branch of `submit_message`. -/
structure SingleResult where
  topic_id : String
  message_size : Nat
  transaction_id : String
  consensus_timestamp : Option String
  sequence_number : Nat
  running_hash : Option String
  status : String

/-- `[message_bytes[i:i + chunk_size] for i in range(0, len(message_bytes), chunk_size)]`.
The fuel argument of `chunksGo` is the list length; since every step drops
`k ≥ 1` elements this fuel always suffices.  For `k = 0` Python `range`
raises `ValueError`; the code never calls the function with a
non-positive `chunk_size` (default 1024), and all theorems assume `0 < k`. -/
def chunksGo {α : Type} (k : Nat) : Nat → List α → List (List α)
  | 0, _ => []
  | _ + 1, [] => []
  | fuel + 1, b => b.take k :: chunksGo k fuel (b.drop k)

def pyChunks {α : Type} (k : Nat) (b : List α) : List (List α) :=
  chunksGo k b.length b

theorem chunksGo_join {α : Type} (k : Nat) (hk : 0 < k) :
    ∀ (fuel : Nat) (b : List α), b.length ≤ fuel → (chunksGo k fuel b).flatten = b := by
  intro fuel
  induction fuel with
  | zero =>
      intro b hb
      have : b = [] := List.eq_nil_of_length_eq_zero (Nat.le_zero.mp hb)
      simp [this, chunksGo]
  | succ n ih =>
      intro b hb
      cases b with
      | nil => simp [chunksGo]
      | cons x xs =>
          have hdrop : ((x :: xs).drop k).length ≤ n := by
            rw [List.length_drop, List.length_cons]
            rw [List.length_cons] at hb
            omega
          calc ((chunksGo k (n + 1) (x :: xs))).flatten
              = (x :: xs).take k ++ (chunksGo k n ((x :: xs).drop k)).flatten := by
                simp [chunksGo]
            _ = (x :: xs).take k ++ (x :: xs).drop k := by rw [ih _ hdrop]
            _ = x :: xs := List.take_append_drop _ _

theorem pyChunks_join {α : Type} (k : Nat) (hk : 0 < k) (b : List α) :
    (pyChunks k b).flatten = b :=
  chunksGo_join k hk b.length b (Nat.le_refl _)

theorem chunksGo_mem_length {α : Type} (k : Nat) :
    ∀ (fuel : Nat) (b : List α) (c : List α), c ∈ chunksGo k fuel b → c.length ≤ k := by
  intro fuel
  induction fuel with
  | zero => intro b c hc; simp [chunksGo] at hc
  | succ n ih =>
      intro b c hc
      cases b with
      | nil => simp [chunksGo] at hc
      | cons x xs =>
          simp only [chunksGo, List.mem_cons] at hc
          cases hc with
          | inl h =>
              subst h
              rw [List.length_take]
              exact Nat.min_le_left _ _
          | inr h => exact ih _ _ h

theorem pyChunks_mem_length {α : Type} (k : Nat) (b : List α) (c : List α)
    (hc : c ∈ pyChunks k b) : c.length ≤ k :=
  chunksGo_mem_length k b.length b c hc

theorem pyChunks_ne_nil {α : Type} (k : Nat) (b : List α) (hb : b ≠ []) :
    pyChunks k b ≠ [] := by
  cases b with
  | nil => exact absurd rfl hb
  | cons x xs => simp [pyChunks, chunksGo]

/-- The loop body of `_submit_chunked_message`: builds the per-chunk result
entries and the list of executed network transactions, starting at chunk
index `i`.  The chunk memo is `f"{memo}:chunk:{i + 1}/{total_chunks}"`,
set only when a memo was given. -/
def chunkLoop (net : Net) (topic : String) (memo : Option String) (total : Nat) :
    Nat → List (List Nat) → List ChunkEntry × List TxSubmission
  | _, [] => ([], [])
  | i, c :: rest =>
      let tail := chunkLoop net topic memo total (i + 1) rest
      (⟨i + 1, net.txId i, net.seqNum i⟩ :: tail.1,
       ⟨topic, c,
         memo.map (fun m => m ++ ":chunk:" ++ toString (i + 1) ++ "/" ++ toString total)⟩
         :: tail.2)

/-- `HCSService._submit_chunked_message`. -/
def submitChunkedMessage (net : Net) (topic : String) (messageBytes : List Nat)
    (memo : Option String) (chunkSize : Nat) : ChunkedResult × List TxSubmission :=
  let chunks := pyChunks chunkSize messageBytes
  let total := chunks.length
  let built := chunkLoop net topic memo total 0 chunks
  ({ topic_id := topic
     message_size := messageBytes.length
     total_chunks := total
     initial_transaction_id := match chunks with
       | [] => none
       | _ :: _ => some (net.txId 0)
     chunks := built.1
     status := "success" }, built.2)

inductive SubmitOutcome where
  | single (r : SingleResult) : SubmitOutcome
  | chunked (r : ChunkedResult) : SubmitOutcome

/-- `HCSService.submit_message` (message already converted to bytes):
chunks when `len(message_bytes) > chunk_size`, otherwise submits one
transaction. -/
def submitMessage (net : Net) (topicId : String) (messageBytes : List Nat)
    (memo : Option String) (chunkSize : Nat) : SubmitOutcome × List TxSubmission :=
  if messageBytes.length > chunkSize then
    let r := submitChunkedMessage net topicId messageBytes memo chunkSize
    (.chunked r.1, r.2)
  else
    (.single
      { topic_id := topicId
        message_size := messageBytes.length
        transaction_id := net.txId 0
        consensus_timestamp := net.consTs 0
        sequence_number := net.seqNum 0
        running_hash := net.runHash 0
        status := "success" },
     [⟨topicId, messageBytes, memo⟩])

theorem chunkLoop_payloads (net : Net) (topic : String) (memo : Option String)
    (total : Nat) : ∀ (i : Nat) (cs : List (List Nat)),
    (chunkLoop net topic memo total i cs).2.map TxSubmission.payload = cs := by
  intro i cs
  induction cs generalizing i with
  | nil => simp [chunkLoop]
  | cons c rest ih => simp [chunkLoop, ih]

theorem chunkLoop_first_tx (net : Net) (topic : String) (memo : Option String)
    (total : Nat) (i : Nat) (c : List Nat) (rest : List (List Nat)) :
    (chunkLoop net topic memo total i (c :: rest)).1.head?.map ChunkEntry.transaction_id
      = some (net.txId i) := by
  simp [chunkLoop]

/-- C1.  For every payload strictly larger than the chunk threshold (and a
positive threshold, as in every call the code makes), `submit_message` takes
the chunked branch: the network transactions it executes carry exactly the
consecutive slices `payload[i:i+chunk_size]`, each of at most `chunk_size`
bytes, whose in-order concatenation is the original payload; and the
`initial_transaction_id` in the returned result is the transaction id of the
first chunk's submission, the correlating id shared by the whole append. -/
theorem chunked_append_round_trip (net : Net) (topicId : String) (payload : List Nat)
    (memo : Option String) (chunkSize : Nat) (hk : 0 < chunkSize)
    (hlen : chunkSize < payload.length) :
    ∃ r trace,
      submitMessage net topicId payload memo chunkSize = (SubmitOutcome.chunked r, trace)
      ∧ trace.map TxSubmission.payload = pyChunks chunkSize payload
      ∧ (∀ c ∈ trace.map TxSubmission.payload, c.length ≤ chunkSize)
      ∧ (trace.map TxSubmission.payload).flatten = payload
      ∧ r.initial_transaction_id = some (net.txId 0)
      ∧ r.chunks.head?.map ChunkEntry.transaction_id = some (net.txId 0) := by
  have hpos : payload ≠ [] := by
    intro h
    rw [h] at hlen
    simp at hlen
  refine ⟨(submitChunkedMessage net topicId payload memo chunkSize).1,
          (submitChunkedMessage net topicId payload memo chunkSize).2, ?_, ?_, ?_, ?_, ?_, ?_⟩
  · simp [submitMessage, hlen]
  · simp [submitChunkedMessage, chunkLoop_payloads]
  · intro c hc
    rw [submitChunkedMessage] at hc
    simp only [chunkLoop_payloads] at hc
    exact pyChunks_mem_length _ _ _ hc
  · rw [submitChunkedMessage]
    simp only [chunkLoop_payloads]
    exact pyChunks_join _ hk _
  · rw [submitChunkedMessage]
    cases hch : pyChunks chunkSize payload with
    | nil => exact absurd hch (pyChunks_ne_nil _ _ hpos)
    | cons c rest => simp [hch]
  · rw [submitChunkedMessage]
    cases hch : pyChunks chunkSize payload with
    | nil => exact absurd hch (pyChunks_ne_nil _ _ hpos)
    | cons c rest => simp [hch, chunkLoop_first_tx]

/-- Witness for C1: a 5-byte payload with chunk size 2 is split into three
chunks `[0,1] [2,3] [4]`, whose concatenation is the payload, correlated by
the first transaction id. -/
theorem chunked_append_round_trip_witness :
    0 < 2 ∧ 2 < ([0, 1, 2, 3, 4] : List Nat).length ∧
    ∃ r trace,
      submitMessage ⟨fun n => "tx" ++ toString n, fun n => n + 1, fun _ => none, fun _ => none⟩
          "0.0.77" [0, 1, 2, 3, 4] (some "m") 2 = (SubmitOutcome.chunked r, trace)
      ∧ trace.map TxSubmission.payload = pyChunks 2 [0, 1, 2, 3, 4]
      ∧ (∀ c ∈ trace.map TxSubmission.payload, c.length ≤ 2)
      ∧ (trace.map TxSubmission.payload).flatten = [0, 1, 2, 3, 4]
      ∧ r.initial_transaction_id = some "tx0"
      ∧ r.chunks.head?.map ChunkEntry.transaction_id = some "tx0" :=
  ⟨by decide, by decide,
    chunked_append_round_trip ⟨fun n => "tx" ++ toString n, fun n => n + 1, fun _ => none,
      fun _ => none⟩ "0.0.77" [0, 1, 2, 3, 4] (some "m") 2 (by decide) (by decide)⟩

/-! ### `HCSService` local subscription state: `unsubscribe_from_topic` -/

/-- The local bookkeeping of `HCSService.__init__`: `subscribed_topics`
(dict topic id to `True`) and `message_handlers` (dict topic id to the
registered callable, represented by an opaque handler id). -/
structure HCSState where
  subscribed_topics : List (String × Bool)
  message_handlers : List (String × Nat)
deriving DecidableEq

/-- Result dict of `unsubscribe_from_topic`. -/
structure UnsubscribeResult where
  topic_id : String
  subscription_status : String
  unsubscribed_at : String
deriving DecidableEq

/-- `HCSService.unsubscribe_from_topic`: deletes the topic id from both
dicts when present and returns the result dict.  The body cannot raise
(membership is checked before each `del`), so the `except` branch that
would wrap a failure into a `BlockchainError` is dead and the function is
total. -/
def unsubscribeFromTopic (now : String) (st : HCSState) (topicId : String) :
    UnsubscribeResult × HCSState :=
  (⟨topicId, "inactive", now⟩,
   ⟨eraseD st.subscribed_topics topicId, eraseD st.message_handlers topicId⟩)

/-- C10.  `unsubscribe_from_topic` is total over local bookkeeping and
idempotent: for every topic id (subscribed or not) it returns
`subscription_status = "inactive"` without raising; afterwards the topic id
is absent from both `subscribed_topics` and `message_handlers`; and running
it a second time leaves the state of the first run unchanged. -/
theorem unsubscribe_idempotent (now now2 : String) (st : HCSState) (topicId : String) :
    (unsubscribeFromTopic now st topicId).1.subscription_status = "inactive"
    ∧ lookupD (unsubscribeFromTopic now st topicId).2.subscribed_topics topicId = none
    ∧ lookupD (unsubscribeFromTopic now st topicId).2.message_handlers topicId = none
    ∧ (unsubscribeFromTopic now2 (unsubscribeFromTopic now st topicId).2 topicId).2
        = (unsubscribeFromTopic now st topicId).2 := by
  refine ⟨rfl, ?_, ?_, ?_⟩
  · exact lookupD_eraseD_self _ _
  · exact lookupD_eraseD_self _ _
  · simp only [unsubscribeFromTopic]
    rw [eraseD_idem, eraseD_idem]

/-! ### `HCS10Agent`: state, send operations, handshake, initialization -/

/-- `AgentStatus` enum of `hcs10_agent.py`. -/
inductive AgentStatus where
  | initializing : AgentStatus
  | registered : AgentStatus
  | active : AgentStatus
  | inactive : AgentStatus
  | error : AgentStatus
deriving DecidableEq

/-- The `Connection` dataclass of `hcs10_agent.py` (timestamps are opaque
strings assigned at call time). -/
structure Connection where
  connection_id : Nat
  remote_agent_id : String
  topic_id : String
  status : String
  created_at : String
  last_activity : Option String
deriving DecidableEq

/-- The mutable fields of `HCS10Agent` set in `__init__` (the registered
`message_handler` callable is represented by an opaque handler id). -/
structure AgentState where
  status : AgentStatus
  account_id : Option String
  inbound_topic_id : Option String
  outbound_topic_id : Option String
  profile_topic_id : Option String
  connections : List (String × Connection)
  message_listeners : List (String × Nat)
  message_handler : Option Nat

/-- Fresh agent as produced by `HCS10Agent.__init__`. -/
def mkAgent (handler : Option Nat) : AgentState :=
  ⟨.initializing, none, none, none, none, [], [], handler⟩

/-- Python `f"{x}"` on an `Optional[str]` field: `None` prints as `"None"`. -/
def pyShow : Option String → String
  | none => "None"
  | some s => s

/-- `HCS10Agent.send_message`.  The oracle `netRes` is the outcome of the
`hcs_service.submit_message` call on the connection topic; the returned
`Nat` counts the submit calls that were issued.  A missing connection
raises `BlockchainError("No active connection with agent ...")`, which the
blanket `except` re-wraps as
`BlockchainError("Message sending failed: " + str(e))`, and no submit call
is made.  On success the connection record's `last_activity` is set to the
current time. -/
def sendMessage (now : String) (netRes : Except PyErr SingleResult) (st : AgentState)
    (targetAgentId : String) : Except PyErr SingleResult × AgentState × Nat :=
  match lookupD st.connections targetAgentId with
  | none =>
      (.error (.blockchainError
        ("Message sending failed: No active connection with agent " ++ targetAgentId)),
       st, 0)
  | some conn =>
      match netRes with
      | .error e =>
          (.error (.blockchainError ("Message sending failed: " ++ pyStr e)), st, 1)
      | .ok r =>
          (.ok r,
           { st with connections :=
               insertD st.connections targetAgentId { conn with last_activity := some now } },
           1)

/-- `HCS10Agent.send_transaction_request`.  Same connection lookup and
error wrapping as `send_message` (with the message
`"Transaction request failed: ..."`), but the success path performs no
state update at all: in the source there is no assignment to
`connection.last_activity` in this method. -/
def sendTransactionRequest (now : String) (netRes : Except PyErr SingleResult)
    (st : AgentState) (targetAgentId : String) :
    Except PyErr SingleResult × AgentState × Nat :=
  match lookupD st.connections targetAgentId with
  | none =>
      (.error (.blockchainError
        ("Transaction request failed: No active connection with agent " ++ targetAgentId)),
       st, 0)
  | some _ =>
      match netRes with
      | .error e =>
          (.error (.blockchainError ("Transaction request failed: " ++ pyStr e)), st, 1)
      | .ok r => (.ok r, st, 1)

/-- A concrete agent state with no connection for agent `0.0.200`, used to
evaluate the send operations at a missing-connection input. -/
def agentNoConn : AgentState :=
  ⟨.registered, some "0.0.1", some "0.0.2", some "0.0.3", some "0.0.4", [], [], none⟩

/-- A concrete network submit result. -/
def okSubmit : SingleResult :=
  ⟨"0.0.50", 10, "tx0", none, 1, none, "success"⟩

/-- Counterexample for C3.  On a missing connection both send operations
raise the generic `BlockchainError` — the class `exceptions.py` reserves
for blockchain/network failures (`error_code "BLOCKCHAIN_ERROR"`) — and
not a dedicated `NoActiveConnectionError`: no such class exists anywhere
in the repository, so the claimed exception type is wrong. -/
theorem send_no_connection_counterexample :
    (sendMessage "t0" (.ok okSubmit) agentNoConn "0.0.200").1
      = .error (.blockchainError "Message sending failed: No active connection with agent 0.0.200")
    ∧ (sendTransactionRequest "t0" (.ok okSubmit) agentNoConn "0.0.200").1
      = .error (.blockchainError "Transaction request failed: No active connection with agent 0.0.200")
    ∧ pyErrCode (.blockchainError "Message sending failed: No active connection with agent 0.0.200")
      = "BLOCKCHAIN_ERROR" := by
  refine ⟨rfl, rfl, rfl⟩

/-- C3 (amended).  For every target agent id with no entry in the local
connections map, both `send_message` and `send_transaction_request` raise
`BlockchainError` (the generic blockchain-error class, there being no
dedicated `NoActiveConnectionError` in the code) with a detail naming the
missing connection, issue zero submit calls to the Log Client, and leave
the agent state unchanged. -/
theorem send_no_connection_raises (now : String) (netRes : Except PyErr SingleResult)
    (st : AgentState) (target : String)
    (h : lookupD st.connections target = none) :
    sendMessage now netRes st target
      = (.error (.blockchainError
          ("Message sending failed: No active connection with agent " ++ target)), st, 0)
    ∧ sendTransactionRequest now netRes st target
      = (.error (.blockchainError
          ("Transaction request failed: No active connection with agent " ++ target)), st, 0) := by
  constructor
  · simp only [sendMessage, h]
  · simp only [sendTransactionRequest, h]

/-- Witness for C3 (amended): evaluated at a concrete agent state with an
empty connections map. -/
theorem send_no_connection_raises_witness :
    lookupD agentNoConn.connections "0.0.200" = none
    ∧ sendMessage "t0" (.ok okSubmit) agentNoConn "0.0.200"
      = (.error (.blockchainError
          "Message sending failed: No active connection with agent 0.0.200"), agentNoConn, 0) :=
  ⟨rfl, (send_no_connection_raises "t0" (.ok okSubmit) agentNoConn "0.0.200" rfl).1⟩

/-- A concrete agent state holding one active connection to `0.0.200`
whose `last_activity` is unset. -/
def agentWithConn : AgentState :=
  ⟨.registered, some "0.0.1", some "0.0.2", some "0.0.3", some "0.0.4",
   [("0.0.200", ⟨12345, "0.0.200", "0.0.60", "active", "t0", none⟩)], [], none⟩

/-- Counterexample for C4.  A successful `send_transaction_request` over an
existing connection leaves the whole agent state — in particular the
connection's `last_activity`, still `None` — unchanged, instead of setting
it to the time of the send. -/
theorem send_transaction_no_activity_update :
    (sendTransactionRequest "t1" (.ok okSubmit) agentWithConn "0.0.200").1 = .ok okSubmit
    ∧ (sendTransactionRequest "t1" (.ok okSubmit) agentWithConn "0.0.200").2.1.connections
        = agentWithConn.connections
    ∧ (lookupD agentWithConn.connections "0.0.200").map Connection.last_activity
        = some none := by
  refine ⟨rfl, rfl, rfl⟩

/-- C4 (amended).  For every existing connection, a successful
`send_message` updates exactly that connection's `last_activity` to the
time of the send, leaving every other field of the record unchanged;
a successful `send_transaction_request` leaves the connection record (and
the whole agent state) entirely unchanged. -/
theorem send_success_activity (now : String) (r : SingleResult) (st : AgentState)
    (target : String) (conn : Connection)
    (h : lookupD st.connections target = some conn) :
    sendMessage now (.ok r) st target
      = (.ok r,
         { st with connections :=
             insertD st.connections target { conn with last_activity := some now } }, 1)
    ∧ lookupD (insertD st.connections target { conn with last_activity := some now }) target
      = some { conn with last_activity := some now }
    ∧ sendTransactionRequest now (.ok r) st target = (.ok r, st, 1) := by
  refine ⟨?_, lookupD_insertD_self _ _ _, ?_⟩
  · simp only [sendMessage, h]
  · simp only [sendTransactionRequest, h]

/-- Witness for C4 (amended): evaluated on the concrete one-connection
state; the updated record keeps every field except `last_activity`. -/
theorem send_success_activity_witness :
    lookupD agentWithConn.connections "0.0.200"
      = some ⟨12345, "0.0.200", "0.0.60", "active", "t0", none⟩
    ∧ sendMessage "t1" (.ok okSubmit) agentWithConn "0.0.200"
      = (.ok okSubmit,
         { agentWithConn with connections :=
             (insertD agentWithConn.connections "0.0.200"
               ⟨12345, "0.0.200", "0.0.60", "active", "t0", some "t1"⟩) }, 1) :=
  ⟨rfl,
   (send_success_activity "t1" okSubmit agentWithConn "0.0.200"
     ⟨12345, "0.0.200", "0.0.60", "active", "t0", none⟩ rfl).1⟩

/-! ### `ConsensusManager`: topic registry and typed submits -/

/-- Result dict of `HCSService.create_topic`. -/
structure CreateTopicResult where
  topic_id : String
  memo : Option String
  admin_key : Option String
  submit_key : String
  auto_renew_period : Nat
  transaction_id : String
  consensus_timestamp : Option String
  status : String
deriving DecidableEq

/-- A topic registry entry of `ConsensusManager`: the spread of the
creation result (`**result`) plus the registry bookkeeping fields added by
`create_consensus_topic`. -/
structure TopicEntry where
  creation : CreateTopicResult
  topic_type : String
  description : String
  created_at : String
  message_count : Nat
  last_activity : Option String
deriving DecidableEq

/-- The mutable state of `ConsensusManager` relevant to the claims: the
`topic_registry` dict. -/
structure CMState where
  topic_registry : List (String × TopicEntry)
deriving DecidableEq

/-- State after `ConsensusManager.__init__`. -/
def cmInit : CMState := ⟨[]⟩

/-- `ConsensusManager.create_consensus_topic`.  `netRes` is the outcome of
the underlying `hcs_service.create_topic` call; on success the topic is
registered with `message_count = 0` and `last_activity = None`, on failure
the error is wrapped and the registry is untouched. -/
def createConsensusTopic (now : String) (netRes : Except PyErr CreateTopicResult)
    (st : CMState) (topicType desc : String) : Except PyErr TopicEntry × CMState :=
  match netRes with
  | .error e =>
      (.error (.blockchainError ("Consensus topic creation failed: " ++ pyStr e)), st)
  | .ok r =>
      let entry : TopicEntry := ⟨r, topicType, desc, now, 0, none⟩
      (.ok entry, ⟨insertD st.topic_registry r.topic_id entry⟩)

def requiredWasteFields : List String :=
  ["user_id", "waste_type", "weight_kg", "location", "timestamp"]

/-- The validation loop of the `submit_*` methods: the first required field
not present in the data dict (`field not in submission_data`). -/
def firstMissingField (required : List String) (data : List (String × JVal)) : Option String :=
  required.find? (fun f => !(hasKeyD data f))

/-- The blanket `except Exception` of `submit_waste_submission`: every
exception raised in the body — including the `ValidationError` raised by
the required-field check — is re-raised as
`BlockchainError("Waste submission to consensus failed: " + str(e))`. -/
def wrapWaste (e : PyErr) : PyErr :=
  .blockchainError ("Waste submission to consensus failed: " ++ pyStr e)

/-- `ConsensusManager.submit_waste_submission`.  `netRes` is the outcome of
the `hcs_service.submit_message` call; the third component lists the memos
of the submit calls actually issued (empty means zero network calls).  On a
missing required field the body raises
`ValidationError("Missing required field: ...")`, which the blanket
`except` swallows and re-wraps via `wrapWaste`, before any submit call.
On submit success, if the topic is registered its `message_count` is
incremented and `last_activity` set to the current time; on submit failure
the registry is untouched. -/
def submitWasteSubmission (now : String) (netRes : Except PyErr SingleResult) (st : CMState)
    (topicId : String) (data : List (String × JVal)) (priority : String) :
    Except PyErr SingleResult × CMState × List String :=
  match firstMissingField requiredWasteFields data with
  | some f =>
      (.error (wrapWaste (.validationError ("Missing required field: " ++ f))), st, [])
  | none =>
      match netRes with
      | .error e => (.error (wrapWaste e), st, ["waste_submission:" ++ priority])
      | .ok r =>
          match lookupD st.topic_registry topicId with
          | some entry =>
              (.ok r,
               ⟨insertD st.topic_registry topicId
                 { entry with message_count := entry.message_count + 1,
                              last_activity := some now }⟩,
               ["waste_submission:" ++ priority])
          | none => (.ok r, st, ["waste_submission:" ++ priority])

/-- A waste submission data dict missing the required `weight_kg` field. -/
def wasteMissingWeight : List (String × JVal) :=
  [("user_id", .jstr "u1"), ("waste_type", .jstr "PET"),
   ("location", .jstr "Zurich"), ("timestamp", .jstr "2024-01-01T00:00:00Z")]

/-- C2 (code bug evaluation).  On a submission missing `weight_kg`,
`submit_waste_submission` issues zero submit calls to the Log Client and
leaves the registry untouched — but the exception that reaches the caller
is `BlockchainError` (`error_code "BLOCKCHAIN_ERROR"`), not the
`ValidationError` the body raised: the blanket `except Exception` at the
end of the method swallows and re-wraps it.  The claim (and the repository
test suite, which expects `pytest.raises(ValidationError)`) describe the
intended behaviour; the blanket except is the slip. -/
theorem waste_validation_swallowed :
    submitWasteSubmission "t0" (.ok okSubmit) cmInit "0.0.10" wasteMissingWeight "medium"
      = (.error (.blockchainError
          "Waste submission to consensus failed: Missing required field: weight_kg"),
         cmInit, [])
    ∧ pyErrCode (.blockchainError
        "Waste submission to consensus failed: Missing required field: weight_kg")
      = "BLOCKCHAIN_ERROR"
    ∧ pyErrCode (.validationError "Missing required field: weight_kg")
      = "VALIDATION_ERROR" :=
  ⟨rfl, rfl, rfl⟩

/-! ### C6: registry `message_count` invariant over operation traces -/

/-- One externally-triggered `ConsensusManager` operation together with the
network outcome it observed. -/
inductive CMOp where
  | createTopic (now : String) (netRes : Except PyErr CreateTopicResult)
      (topicType desc : String) : CMOp
  | submitWaste (now : String) (netRes : Except PyErr SingleResult) (topicId : String)
      (data : List (String × JVal)) (priority : String) : CMOp

/-- State transition of one operation (the returned value / raised
exception goes to the caller; the registry state is what the trace
semantics tracks). -/
def cmStep (st : CMState) : CMOp → CMState
  | .createTopic now netRes typ desc => (createConsensusTopic now netRes st typ desc).2
  | .submitWaste now netRes topicId data priority =>
      (submitWasteSubmission now netRes st topicId data priority).2.1

def cmRun (st : CMState) (ops : List CMOp) : CMState := ops.foldl cmStep st

/-- Whether an operation successfully creates the topic `t` (a registry
entry for `t` appears because of it). -/
def opCreates (t : String) : CMOp → Bool
  | .createTopic _ (.ok r) _ _ => r.topic_id == t
  | _ => false

/-- Whether an operation is a submit against topic `t` that returns
successfully (validation passes and the network append succeeds). -/
def opSubmitOk (t : String) : CMOp → Bool
  | .submitWaste _ (.ok _) topicId data _ =>
      topicId == t && (firstMissingField requiredWasteFields data).isNone
  | _ => false

def opTime : CMOp → String
  | .createTopic now _ _ _ => now
  | .submitWaste now _ _ _ _ => now

/-- Number of successful submit calls against topic `t` in a trace. -/
def succSubmits (t : String) : List CMOp → Nat
  | [] => 0
  | op :: rest => (if opSubmitOk t op then 1 else 0) + succSubmits t rest

/-- The `last_activity` value after a trace: time of the last successful
submit against `t`, or the initial value if there is none. -/
def lastSubmitTime (t : String) (init : Option String) : List CMOp → Option String
  | [] => init
  | op :: rest =>
      lastSubmitTime t (if opSubmitOk t op then some (opTime op) else init) rest

theorem cmRun_lookup (t : String) :
    ∀ (ops : List CMOp) (st : CMState) (entry : TopicEntry),
    lookupD st.topic_registry t = some entry →
    (∀ op ∈ ops, opCreates t op = false) →
    lookupD (cmRun st ops).topic_registry t
      = some { entry with
          message_count := entry.message_count + succSubmits t ops,
          last_activity := lastSubmitTime t entry.last_activity ops } := by
  intro ops
  induction ops with
  | nil =>
      intro st entry h _
      simp only [cmRun, List.foldl_nil, succSubmits, Nat.add_zero, lastSubmitTime]
      exact h
  | cons op rest ih =>
      intro st entry h hc
      have hcop : opCreates t op = false := hc op (List.mem_cons_self _ _)
      have hcrest : ∀ o ∈ rest, opCreates t o = false :=
        fun o ho => hc o (List.mem_cons_of_mem _ ho)
      rw [show cmRun st (op :: rest) = cmRun (cmStep st op) rest from rfl]
      cases op with
      | createTopic now netRes typ desc =>
          cases netRes with
          | error e =>
              have hstep : cmStep st (.createTopic now (.error e) typ desc) = st := rfl
              rw [hstep]
              have hres := ih st entry h hcrest
              simpa [succSubmits, lastSubmitTime, opSubmitOk] using hres
          | ok r =>
              have hne : t ≠ r.topic_id := by
                intro hh
                rw [opCreates] at hcop
                rw [← hh] at hcop
                simp at hcop
              have hstep : (cmStep st (.createTopic now (.ok r) typ desc)).topic_registry
                  = insertD st.topic_registry r.topic_id ⟨r, typ, desc, now, 0, none⟩ := rfl
              have hlook : lookupD (cmStep st (.createTopic now (.ok r) typ desc)).topic_registry t
                  = some entry := by
                rw [hstep, lookupD_insertD_ne _ _ _ _ hne]
                exact h
              have hres := ih _ entry hlook hcrest
              simpa [succSubmits, lastSubmitTime, opSubmitOk] using hres
      | submitWaste now netRes topicId data priority =>
          cases hval : firstMissingField requiredWasteFields data with
          | some f =>
              have hstep : cmStep st (.submitWaste now netRes topicId data priority) = st := by
                cases netRes <;>
                  simp [cmStep, submitWasteSubmission, hval]
              rw [hstep]
              have hok : opSubmitOk t (.submitWaste now netRes topicId data priority) = false := by
                cases netRes <;> simp [opSubmitOk, hval]
              have hres := ih st entry h hcrest
              simpa [succSubmits, lastSubmitTime, hok] using hres
          | none =>
              cases netRes with
              | error e =>
                  have hstep : cmStep st (.submitWaste now (.error e) topicId data priority)
                      = st := by
                    simp [cmStep, submitWasteSubmission, hval]
                  rw [hstep]
                  have hres := ih st entry h hcrest
                  simpa [succSubmits, lastSubmitTime, opSubmitOk] using hres
              | ok r =>
                  by_cases htid : topicId = t
                  · subst htid
                    have hstep : (cmStep st (.submitWaste now (.ok r) topicId data priority)).topic_registry
                        = insertD st.topic_registry topicId
                            { entry with message_count := entry.message_count + 1,
                                         last_activity := some now } := by
                      simp [cmStep, submitWasteSubmission, hval, h]
                    have hlook : lookupD (cmStep st (.submitWaste now (.ok r) topicId data priority)).topic_registry topicId
                        = some { entry with message_count := entry.message_count + 1,
                                            last_activity := some now } := by
                      rw [hstep]
                      exact lookupD_insertD_self _ _ _
                    have hres := ih _ _ hlook hcrest
                    have hok : opSubmitOk topicId (.submitWaste now (.ok r) topicId data priority)
                        = true := by
                      simp [opSubmitOk, hval]
                    simp only [succSubmits, lastSubmitTime, opTime, hok, if_true] at hres ⊢
                    rw [hres]
                    simp only [Option.some.injEq, TopicEntry.mk.injEq, and_true, true_and]
                    omega
                  · have hok : opSubmitOk t (.submitWaste now (.ok r) topicId data priority)
                        = false := by
                      simp [opSubmitOk, htid]
                    have hlook : lookupD (cmStep st (.submitWaste now (.ok r) topicId data priority)).topic_registry t
                        = some entry := by
                      cases hreg : lookupD st.topic_registry topicId with
                      | none =>
                          have : cmStep st (.submitWaste now (.ok r) topicId data priority) = st := by
                            simp [cmStep, submitWasteSubmission, hval, hreg]
                          rw [this]; exact h
                      | some e2 =>
                          have hstep : (cmStep st (.submitWaste now (.ok r) topicId data priority)).topic_registry
                              = insertD st.topic_registry topicId
                                  { e2 with message_count := e2.message_count + 1,
                                            last_activity := some now } := by
                            simp [cmStep, submitWasteSubmission, hval, hreg]
                          rw [hstep, lookupD_insertD_ne _ _ _ _ (fun hh => htid hh.symm)]
                          exact h
                    have hres := ih _ entry hlook hcrest
                    simpa [succSubmits, lastSubmitTime, hok] using hres

/-- C6.  For every trace: once a topic is created through the registry
(its entry starting with `message_count = 0`, `last_activity = None`), and
as long as no later operation re-creates the same topic id, the entry's
`message_count` after any further operations equals exactly the number of
successful submit calls against that topic id, and `last_activity` is the
time of the last successful submit (still `None` if there was none):
each successful submit adds one and stamps the time, and validation or
network failures leave the entry untouched. -/
theorem registry_count_invariant (pre : List CMOp) (now : String) (r : CreateTopicResult)
    (typ desc : String) (ops : List CMOp)
    (hfresh : ∀ op ∈ ops, opCreates r.topic_id op = false) :
    lookupD (cmRun (cmStep (cmRun cmInit pre)
        (.createTopic now (.ok r) typ desc)) ops).topic_registry r.topic_id
      = some { creation := r, topic_type := typ, description := desc, created_at := now,
               message_count := succSubmits r.topic_id ops,
               last_activity := lastSubmitTime r.topic_id none ops } := by
  have hstart : lookupD (cmStep (cmRun cmInit pre)
      (.createTopic now (.ok r) typ desc)).topic_registry r.topic_id
      = some ⟨r, typ, desc, now, 0, none⟩ := by
    simp only [cmStep, createConsensusTopic]
    exact lookupD_insertD_self _ _ _
  have hres := cmRun_lookup r.topic_id ops _ _ hstart hfresh
  simpa using hres

/-- A concrete creation result for the C6 witness. -/
def topicRes10 : CreateTopicResult :=
  ⟨"0.0.10", some "circularity-nexus:waste_submissions:d", none, "public",
   7776000, "tx9", none, "success"⟩

/-- A complete waste submission data dict. -/
def wasteComplete : List (String × JVal) :=
  [("user_id", .jstr "u1"), ("waste_type", .jstr "PET"), ("weight_kg", .jnum 2),
   ("location", .jstr "Zurich"), ("timestamp", .jstr "2024-01-01T00:00:00Z")]

/-- Witness trace for C6: a successful submit, a validation failure, a
network failure and a successful submit against another topic. -/
def opsC6 : List CMOp :=
  [.submitWaste "t1" (.ok okSubmit) "0.0.10" wasteComplete "medium",
   .submitWaste "t2" (.ok okSubmit) "0.0.10" wasteMissingWeight "medium",
   .submitWaste "t3" (.error (.blockchainError "Message submission failed: boom"))
     "0.0.10" wasteComplete "medium",
   .submitWaste "t4" (.ok okSubmit) "0.0.99" wasteComplete "medium"]

/-- Witness for C6: on the concrete trace the registry entry for topic
`0.0.10` counts exactly the one successful submit against it and carries
its timestamp. -/
theorem registry_count_invariant_witness :
    (∀ op ∈ opsC6, opCreates "0.0.10" op = false)
    ∧ lookupD (cmRun (cmStep (cmRun cmInit [])
        (.createTopic "t0" (.ok topicRes10) "waste_submissions" "d")) opsC6).topic_registry "0.0.10"
      = some { creation := topicRes10, topic_type := "waste_submissions", description := "d",
               created_at := "t0", message_count := 1, last_activity := some "t1" } := by
  refine ⟨by decide, ?_⟩
  have hres := registry_count_invariant [] "t0" topicRes10 "waste_submissions" "d" opsC6
    (by decide)
  exact hres

/-! ### C7: `HCS10Agent.initialize` -/

/-- The six steps of `initialize`, in source order. -/
inductive InitStep where
  | ensureAccount : InitStep
  | createOutbound : InitStep
  | createInbound : InitStep
  | createProfileTopic : InitStep
  | publishProfile : InitStep
  | setupListeners : InitStep
deriving DecidableEq

/-- Result dict of a successful `initialize`. -/
structure InitResult where
  agent_id : String
  inbound_topic : String
  outbound_topic : String
  profile_topic : String
  status : String
  initialization_timestamp : String
deriving DecidableEq

/-- The network outcomes the five fallible steps of `initialize` would
observe (account creation, the three topic creations, the profile
publish); listener setup is a local dict assignment and cannot fail. -/
structure InitEnv where
  accountRes : Except PyErr String
  outboundRes : Except PyErr String
  inboundRes : Except PyErr String
  profileRes : Except PyErr String
  publishRes : Except PyErr SingleResult

/-- The `except` clause of `initialize`: the first failure is wrapped as
`BlockchainError("Agent initialization failed: " + str(e))` after setting
`self.status = AgentStatus.ERROR`. -/
def wrapInit (e : PyErr) : PyErr :=
  .blockchainError ("Agent initialization failed: " ++ pyStr e)

/-- `HCS10Agent.initialize`: runs the six steps in order, assigning each
produced id to the agent as it goes; the first failing step aborts the
remaining ones, sets the status to `ERROR` and re-raises the wrapped
failure; if all succeed the status becomes `REGISTERED`.  The third
component lists the steps that were executed. -/
def initAgent (now : String) (st : AgentState) (env : InitEnv) :
    Except PyErr InitResult × AgentState × List InitStep :=
  match (match st.account_id with | some a => Except.ok a | none => env.accountRes) with
  | .error e =>
      (.error (wrapInit e), { st with status := .error }, [.ensureAccount])
  | .ok acct =>
      match env.outboundRes with
      | .error e =>
          (.error (wrapInit e),
           { st with account_id := some acct, status := .error },
           [.ensureAccount, .createOutbound])
      | .ok ob =>
          match env.inboundRes with
          | .error e =>
              (.error (wrapInit e),
               { st with
                   account_id := some acct, outbound_topic_id := some ob,
                   status := .error },
               [.ensureAccount, .createOutbound, .createInbound])
          | .ok ib =>
              match env.profileRes with
              | .error e =>
                  (.error (wrapInit e),
                   { st with
                       account_id := some acct, outbound_topic_id := some ob,
                       inbound_topic_id := some ib, status := .error },
                   [.ensureAccount, .createOutbound, .createInbound, .createProfileTopic])
              | .ok pf =>
                  match env.publishRes with
                  | .error e =>
                      (.error (wrapInit e),
                       { st with
                           account_id := some acct, outbound_topic_id := some ob,
                           inbound_topic_id := some ib, profile_topic_id := some pf,
                           status := .error },
                       [.ensureAccount, .createOutbound, .createInbound,
                        .createProfileTopic, .publishProfile])
                  | .ok _ =>
                      (.ok ⟨acct, ib, ob, pf, "registered", now⟩,
                       { st with
                           account_id := some acct, outbound_topic_id := some ob,
                           inbound_topic_id := some ib, profile_topic_id := some pf,
                           message_listeners :=
                             (match st.message_handler with
                               | some hd => insertD st.message_listeners ib hd
                               | none => st.message_listeners),
                           status := .registered },
                       [.ensureAccount, .createOutbound, .createInbound,
                        .createProfileTopic, .publishProfile, .setupListeners])

/-- C7.  On a fresh agent, `initialize` performs its steps in the stated
order — ensure account, create outbound topic, create inbound topic,
create profile topic, publish profile, register listeners.  If every step
succeeds the status becomes `REGISTERED` and all six steps ran; if any
step fails, the executed steps are exactly the prefix up to and including
the failing one (the outcomes of the remaining steps are arbitrary and
never consulted), the status becomes `ERROR`, and the first failure is
wrapped and re-raised as `BlockchainError("Agent initialization failed:
...")`. -/
theorem init_agent_fail_fast (now : String) (handler : Option Nat) :
    (∀ a ob ib pf pr,
      initAgent now (mkAgent handler) ⟨.ok a, .ok ob, .ok ib, .ok pf, .ok pr⟩
        = (.ok ⟨a, ib, ob, pf, "registered", now⟩,
           ⟨.registered, some a, some ib, some ob, some pf, [],
            (match handler with | some hd => insertD [] ib hd | none => []), handler⟩,
           [.ensureAccount, .createOutbound, .createInbound, .createProfileTopic,
            .publishProfile, .setupListeners]))
    ∧ (∀ e r2 r3 r4 r5,
      initAgent now (mkAgent handler) ⟨.error e, r2, r3, r4, r5⟩
        = (.error (wrapInit e),
           ⟨.error, none, none, none, none, [], [], handler⟩,
           [.ensureAccount]))
    ∧ (∀ a e r3 r4 r5,
      initAgent now (mkAgent handler) ⟨.ok a, .error e, r3, r4, r5⟩
        = (.error (wrapInit e),
           ⟨.error, some a, none, none, none, [], [], handler⟩,
           [.ensureAccount, .createOutbound]))
    ∧ (∀ a ob e r4 r5,
      initAgent now (mkAgent handler) ⟨.ok a, .ok ob, .error e, r4, r5⟩
        = (.error (wrapInit e),
           ⟨.error, some a, none, some ob, none, [], [], handler⟩,
           [.ensureAccount, .createOutbound, .createInbound]))
    ∧ (∀ a ob ib e r5,
      initAgent now (mkAgent handler) ⟨.ok a, .ok ob, .ok ib, .error e, r5⟩
        = (.error (wrapInit e),
           ⟨.error, some a, some ib, some ob, none, [], [], handler⟩,
           [.ensureAccount, .createOutbound, .createInbound, .createProfileTopic]))
    ∧ (∀ a ob ib pf e,
      initAgent now (mkAgent handler) ⟨.ok a, .ok ob, .ok ib, .ok pf, .error e⟩
        = (.error (wrapInit e),
           ⟨.error, some a, some ib, some ob, some pf, [], [], handler⟩,
           [.ensureAccount, .createOutbound, .createInbound, .createProfileTopic,
            .publishProfile])) :=
  ⟨fun _ _ _ _ _ => rfl, fun _ _ _ _ _ => rfl, fun _ _ _ _ _ => rfl,
   fun _ _ _ _ _ => rfl, fun _ _ _ _ _ => rfl, fun _ _ _ _ _ => rfl⟩

/-! ### C9: `HCS10Agent.create_connection` -/

/-- One call against the external network made by `create_connection`, in
order of execution: a topic creation (`restricted` reflects a submit key
being set) or a message submission (payload as decoded JSON). -/
inductive NetEffect where
  | createTopicEff (memo : Option String) (restricted : Bool) : NetEffect
  | submitEff (topicId : String) (payload : JVal) (memo : Option String) : NetEffect

/-- Return dict of a successful `create_connection`. -/
structure ConnCreateResult where
  connection_id : Nat
  connection_topic : String
  remote_agent : String
  status : String
deriving DecidableEq

/-- `self.protocol_version` set in `HCS10Agent.__init__`. -/
def protocolVersion : String := "hcs-10:0"

/-- `self.ttl` set in `HCS10Agent.__init__` (minutes). -/
def agentTtl : Nat := 60

/-- Field access on a decoded JSON object (used only to state properties
of envelopes; returns `none` off objects or missing keys). -/
def JVal.getField : JVal → String → Option JVal
  | .jobj fields, k => lookupD fields k
  | _, _ => none

/-- The `connection_created` envelope posted back to the requesting
agent's inbound topic. -/
def connectionCreatedMsg (st : AgentState) (topicId reqAgent : String) (connId : Nat) : JVal :=
  .jobj [("p", .jstr "hcs-10"), ("op", .jstr "connection_created"),
         ("connection_topic_id", .jstr topicId),
         ("connected_account_id", .jstr reqAgent),
         ("operator_id", .jstr (pyShow st.inbound_topic_id ++ "@" ++ pyShow st.account_id)),
         ("connection_id", .jnum connId),
         ("m", .jstr "Connection established.")]

/-- The memo of the connection topic:
`f"{self.protocol_version}:{self.ttl}:2:{self.inbound_topic_id}:{connection_id}"`. -/
def connectionMemo (st : AgentState) (connId : Nat) : String :=
  protocolVersion ++ ":" ++ toString agentTtl ++ ":2:" ++
    pyShow st.inbound_topic_id ++ ":" ++ toString connId

/-- `HCS10Agent.create_connection`.  `connId` is the randomly generated
connection id; `createRes` and `submitRes` are the network outcomes of the
topic creation and of the announcement submission.  The effect trace
records the network calls in execution order: the connection topic is
created first, then the `connection_created` envelope is posted to the
requester's inbound topic, and only then is the local `Connection` record
stored under the requesting agent's account id. -/
def createConnection (now : String) (connId : Nat)
    (createRes : Except PyErr CreateTopicResult) (submitRes : Except PyErr SingleResult)
    (st : AgentState) (reqAgent reqInbound : String) :
    Except PyErr ConnCreateResult × AgentState × List NetEffect :=
  match createRes with
  | .error e =>
      (.error (.blockchainError ("Connection creation failed: " ++ pyStr e)), st,
       [.createTopicEff (some (connectionMemo st connId)) true])
  | .ok r =>
      match submitRes with
      | .error e =>
          (.error (.blockchainError ("Connection creation failed: " ++ pyStr e)), st,
           [.createTopicEff (some (connectionMemo st connId)) true,
            .submitEff reqInbound (connectionCreatedMsg st r.topic_id reqAgent connId)
              (some "hcs-10:op:4:1")])
      | .ok _ =>
          (.ok ⟨connId, r.topic_id, reqAgent, "active"⟩,
           { st with connections := (insertD st.connections reqAgent
               ⟨connId, reqAgent, r.topic_id, "active", now, none⟩) },
           [.createTopicEff (some (connectionMemo st connId)) true,
            .submitEff reqInbound (connectionCreatedMsg st r.topic_id reqAgent connId)
              (some "hcs-10:op:4:1")])

/-- C9.  On a successful `create_connection`, the effect trace is exactly
topic-creation first, announcement second (the connection topic is fully
created before the `connection_created` envelope is posted to the
requester's inbound topic); the connections map afterwards holds, keyed by
the requesting agent's account id, a record whose `topic_id` is the newly
created topic, whose `status` is `"active"`, and whose `connection_id`
equals the `connection_id` named inside the posted envelope (which also
names the new topic in `connection_topic_id`). -/
theorem create_connection_order (now : String) (connId : Nat) (r : CreateTopicResult)
    (sres : SingleResult) (st : AgentState) (reqAgent reqInbound : String) :
    createConnection now connId (.ok r) (.ok sres) st reqAgent reqInbound
      = (.ok ⟨connId, r.topic_id, reqAgent, "active"⟩,
         { st with connections := (insertD st.connections reqAgent
             ⟨connId, reqAgent, r.topic_id, "active", now, none⟩) },
         [.createTopicEff (some (connectionMemo st connId)) true,
          .submitEff reqInbound (connectionCreatedMsg st r.topic_id reqAgent connId)
            (some "hcs-10:op:4:1")])
    ∧ lookupD (insertD st.connections reqAgent
         ⟨connId, reqAgent, r.topic_id, "active", now, none⟩) reqAgent
      = some ⟨connId, reqAgent, r.topic_id, "active", now, none⟩
    ∧ (connectionCreatedMsg st r.topic_id reqAgent connId).getField "connection_id"
      = some (.jnum connId)
    ∧ (connectionCreatedMsg st r.topic_id reqAgent connId).getField "connection_topic_id"
      = some (.jstr r.topic_id) :=
  ⟨rfl, lookupD_insertD_self _ _ _, rfl, rfl⟩

/-! ### C5: `HCS10Agent.discover_agents` -/

/-- One entry of the list produced by `HCSService.get_topic_messages`
(ascending sequence-number order), with `contents` already put through
`json.loads` (`none` = `json.JSONDecodeError`). -/
structure RawMessage where
  consensus_timestamp : String
  sequence_number : Nat
  running_hash : Option String
  contents : Option JVal

/-- One entry of the list returned by `discover_agents`. -/
structure AgentEntry where
  account_id : JVal
  message : JVal
  timestamp : String
  sequence_number : Nat

/-- The loop of `discover_agents` over the registry messages.  A payload
that failed JSON decoding is skipped (`except json.JSONDecodeError:
continue`); on a decoded object the `register` filter is evaluated with
`dict.get`; a qualifying envelope is materialised with
`content["account_id"]`, which raises `KeyError` when the key is absent;
a decoded non-object raises `AttributeError` at `content.get("p")`.
Neither builtin error is caught by the loop's `except`, so either one
escapes to the caller. -/
def discoverLoop (selfAcc : Option String) : List RawMessage → Except PyErr (List AgentEntry)
  | [] => .ok []
  | m :: rest =>
      match m.contents with
      | none => discoverLoop selfAcc rest
      | some (.jobj fields) =>
          if isStr ((lookupD fields "p").getD .jnull) "hcs-10"
              && isStr ((lookupD fields "op").getD .jnull) "register"
              && pyNeAccount ((lookupD fields "account_id").getD .jnull) selfAcc then
            match lookupD fields "account_id" with
            | some a =>
                match discoverLoop selfAcc rest with
                | .ok l =>
                    .ok (⟨a, (lookupD fields "m").getD (.jstr ""),
                          m.consensus_timestamp, m.sequence_number⟩ :: l)
                | .error e => .error e
            | none => .error (.keyError "account_id")
          else discoverLoop selfAcc rest
      | some _ => .error .attributeError

/-- `HCS10Agent.discover_agents` on an already-fetched registry message
list: the loop above, with any escaping exception re-wrapped by the outer
`except` as `BlockchainError("Agent discovery failed: " + str(e))`. -/
def discoverAgents (selfAcc : Option String) (msgs : List RawMessage) :
    Except PyErr (List AgentEntry) :=
  match discoverLoop selfAcc msgs with
  | .ok l => .ok l
  | .error e => .error (.blockchainError ("Agent discovery failed: " ++ pyStr e))

/-- Spec-side restatement of C5's filter (clearly named, built from the
claim's words): an entry is retained exactly when its payload parses to a
JSON object envelope with `p == "hcs-10"`, `op == "register"` and an
`account_id` differing from the caller's own. -/
def registerEntry (selfAcc : Option String) (m : RawMessage) : Option AgentEntry :=
  match m.contents with
  | some (.jobj fields) =>
      if isStr ((lookupD fields "p").getD .jnull) "hcs-10"
          && isStr ((lookupD fields "op").getD .jnull) "register"
          && pyNeAccount ((lookupD fields "account_id").getD .jnull) selfAcc then
        (lookupD fields "account_id").map (fun a =>
          ⟨a, (lookupD fields "m").getD (.jstr ""),
           m.consensus_timestamp, m.sequence_number⟩)
      else none
  | _ => none

/-- Spec-side result of `discover_agents`: the qualifying entries in the
order read. -/
def discoverAgentsSpec (selfAcc : Option String) (msgs : List RawMessage) : List AgentEntry :=
  msgs.filterMap (registerEntry selfAcc)

/-- The inputs on which the discovery loop cannot hit an uncaught builtin
error: each payload either fails JSON decoding, or decodes to an object
which, if it passes the register filter, has an `account_id` key. -/
def discoverSafe (selfAcc : Option String) (m : RawMessage) : Bool :=
  match m.contents with
  | none => true
  | some (.jobj fields) =>
      !(isStr ((lookupD fields "p").getD .jnull) "hcs-10"
          && isStr ((lookupD fields "op").getD .jnull) "register"
          && pyNeAccount ((lookupD fields "account_id").getD .jnull) selfAcc)
      || (lookupD fields "account_id").isSome
  | some _ => false

theorem isStr_false_ne (v : JVal) (s : String) (h : isStr v s = false) :
    v ≠ JVal.jstr s := by
  intro hv
  rw [hv] at h
  simp [isStr] at h

theorem registerEntry_ne_self (a : String) (m : RawMessage) (e : AgentEntry)
    (h : registerEntry (some a) m = some e) : e.account_id ≠ JVal.jstr a := by
  obtain ⟨mts, mseq, mrh, mc⟩ := m
  cases mc with
  | none => simp [registerEntry] at h
  | some v =>
      cases v with
      | jnull => simp [registerEntry] at h
      | jbool b => simp [registerEntry] at h
      | jstr s => simp [registerEntry] at h
      | jnum n => simp [registerEntry] at h
      | jobj fields =>
          have h2 : (if isStr ((lookupD fields "p").getD .jnull) "hcs-10"
              && isStr ((lookupD fields "op").getD .jnull) "register"
              && pyNeAccount ((lookupD fields "account_id").getD .jnull) (some a) then
                (lookupD fields "account_id").map (fun av =>
                  (⟨av, (lookupD fields "m").getD (.jstr ""), mts, mseq⟩ : AgentEntry))
              else none) = some e := h
          by_cases hcond : (isStr ((lookupD fields "p").getD .jnull) "hcs-10"
              && isStr ((lookupD fields "op").getD .jnull) "register"
              && pyNeAccount ((lookupD fields "account_id").getD .jnull) (some a)) = true
          · rw [if_pos hcond] at h2
            cases hacc : lookupD fields "account_id" with
            | none => rw [hacc] at h2; simp at h2
            | some av =>
                rw [hacc] at h2
                simp only [Option.map_some', Option.some.injEq] at h2
                simp only [Bool.and_eq_true] at hcond
                have hne : pyNeAccount av (some a) = true := by
                  have h3 := hcond.2
                  rw [hacc] at h3
                  simpa using h3
                rw [pyNeAccount] at hne
                have hfalse : isStr av a = false := by simpa using hne
                rw [← h2]
                exact isStr_false_ne av a hfalse
          · rw [if_neg hcond] at h2
            simp at h2

theorem discoverLoop_spec (selfAcc : Option String) :
    ∀ msgs : List RawMessage,
    (∀ m ∈ msgs, discoverSafe selfAcc m = true) →
    discoverLoop selfAcc msgs = .ok (discoverAgentsSpec selfAcc msgs) := by
  intro msgs
  induction msgs with
  | nil => intro _; simp [discoverLoop, discoverAgentsSpec]
  | cons m rest ih =>
      intro h
      have hm : discoverSafe selfAcc m = true := h m (List.mem_cons_self _ _)
      have hrest : ∀ x ∈ rest, discoverSafe selfAcc x = true :=
        fun x hx => h x (List.mem_cons_of_mem _ hx)
      have hihres := ih hrest
      obtain ⟨mts, mseq, mrh, mc⟩ := m
      cases mc with
      | none =>
          simp [discoverLoop, hihres, discoverAgentsSpec, List.filterMap_cons,
            registerEntry]
      | some v =>
          cases v with
          | jnull => simp [discoverSafe] at hm
          | jbool b => simp [discoverSafe] at hm
          | jstr s => simp [discoverSafe] at hm
          | jnum n => simp [discoverSafe] at hm
          | jobj fields =>
              by_cases hcond : (isStr ((lookupD fields "p").getD .jnull) "hcs-10"
                  && isStr ((lookupD fields "op").getD .jnull) "register"
                  && pyNeAccount ((lookupD fields "account_id").getD .jnull) selfAcc) = true
              · have hm2 : (!(isStr ((lookupD fields "p").getD .jnull) "hcs-10"
                    && isStr ((lookupD fields "op").getD .jnull) "register"
                    && pyNeAccount ((lookupD fields "account_id").getD .jnull) selfAcc)
                    || (lookupD fields "account_id").isSome) = true := hm
                rw [hcond] at hm2
                have hacc : (lookupD fields "account_id").isSome = true := by
                  simpa using hm2
                obtain ⟨av, ha⟩ := Option.isSome_iff_exists.mp hacc
                simp only [Bool.and_eq_true] at hcond
                obtain ⟨⟨hp1, hp2⟩, hp3⟩ := hcond
                rw [ha] at hp3
                simp only [Option.getD_some] at hp3
                simp [discoverLoop, hp1, hp2, hp3, ha, hihres, discoverAgentsSpec,
                  List.filterMap_cons, registerEntry]
              · rw [Bool.not_eq_true] at hcond
                simp [discoverLoop, hcond, hihres, discoverAgentsSpec,
                  List.filterMap_cons, registerEntry]

/-- A registry message that is a well-formed `register` envelope except
that it carries no `account_id` field. -/
def regMsgNoAccount : RawMessage :=
  ⟨"ts1", 1, none, some (.jobj [("p", .jstr "hcs-10"), ("op", .jstr "register")])⟩

/-- Counterexample for C5.  A registry entry that parses as a JSON
`register` envelope but lacks an `account_id` key makes the whole
`discover_agents` call raise (`content["account_id"]` raises `KeyError`,
which the loop's `except json.JSONDecodeError` does not catch and the
outer `except` re-wraps as `BlockchainError`), instead of the call
returning the filtered list as claimed. -/
theorem discover_missing_account_fatal :
    discoverAgents (some "0.0.1") [regMsgNoAccount]
      = .error (.blockchainError "Agent discovery failed: account_id") := rfl

/-- C5 (amended).  For every registry message list in which each payload
either fails JSON decoding or decodes to a JSON object carrying an
`account_id` whenever it passes the register filter, `discover_agents`
returns exactly the entries whose payload is a `register` envelope of
protocol `hcs-10` with `account_id` differing from the caller's own, in
the order read; JSON-decode failures are skipped without failing the
call, and the caller's own account id never appears in the result.
(Without the well-formedness hypothesis the call can raise, as
`discover_missing_account_fatal` shows.) -/
theorem discover_agents_filter (selfAcc : Option String) (msgs : List RawMessage)
    (h : ∀ m ∈ msgs, discoverSafe selfAcc m = true) :
    discoverAgents selfAcc msgs = .ok (discoverAgentsSpec selfAcc msgs)
    ∧ ∀ e ∈ discoverAgentsSpec selfAcc msgs, ∀ a, selfAcc = some a →
        e.account_id ≠ JVal.jstr a := by
  constructor
  · rw [discoverAgents, discoverLoop_spec selfAcc msgs h]
  · intro e he a ha
    subst ha
    obtain ⟨m, _, hf⟩ := List.mem_filterMap.mp he
    exact registerEntry_ne_self a m e hf

/-- A valid registration by another agent. -/
def regOther : RawMessage :=
  ⟨"ts1", 1, none, some (.jobj [("p", .jstr "hcs-10"), ("op", .jstr "register"),
    ("account_id", .jstr "0.0.2"), ("m", .jstr "hi")])⟩

/-- A message whose payload fails JSON decoding. -/
def badPayloadMsg : RawMessage := ⟨"ts2", 2, none, none⟩

/-- The caller's own registration. -/
def regSelf : RawMessage :=
  ⟨"ts3", 3, none, some (.jobj [("p", .jstr "hcs-10"), ("op", .jstr "register"),
    ("account_id", .jstr "0.0.1")])⟩

/-- Witness for C5 (amended): the other agent's registration is returned,
the undecodable payload is skipped, and the caller's own registration is
excluded. -/
theorem discover_agents_filter_witness :
    (∀ m ∈ [regOther, badPayloadMsg, regSelf], discoverSafe (some "0.0.1") m = true)
    ∧ discoverAgents (some "0.0.1") [regOther, badPayloadMsg, regSelf]
      = .ok [⟨.jstr "0.0.2", .jstr "hi", "ts1", 1⟩] :=
  ⟨by decide,
   (discover_agents_filter (some "0.0.1") [regOther, badPayloadMsg, regSelf] (by decide)).1⟩

/-! ### C8: `ConsensusManager.query_consensus_history` -/

/-- One processed message of the query result. -/
structure ProcessedMessage where
  consensus_timestamp : String
  sequence_number : Nat
  message_type : JVal
  priority : JVal
  data : JVal
  metadata : JVal
  running_hash : Option String

/-- Result dict of `query_consensus_history`. -/
structure HistoryResult where
  topic_id : String
  message_type_filter : Option String
  total_messages : Nat
  messages : List ProcessedMessage
  query_timestamp : String

/-- Python truthiness of the optional `message_type` filter argument
(`None` and the empty string are falsy). -/
def pyTruthy : Option String → Bool
  | none => false
  | some s => s != ""

/-- The processing loop of `query_consensus_history`: JSON-decode failures
are skipped with a logged warning (`except json.JSONDecodeError:
continue`); a decoded object is dropped when a type filter is given and
its `type` differs, and otherwise contributes a processed message carrying
sequence number and running hash; a decoded non-object raises
`AttributeError` at `content.get("type")`, which the loop does not catch. -/
def queryLoop (filterType : Option String) : List RawMessage → Except PyErr (List ProcessedMessage)
  | [] => .ok []
  | m :: rest =>
      match m.contents with
      | none => queryLoop filterType rest
      | some (.jobj fields) =>
          if pyTruthy filterType
              && !(isStr ((lookupD fields "type").getD .jnull) (filterType.getD "")) then
            queryLoop filterType rest
          else
            match queryLoop filterType rest with
            | .ok l =>
                .ok (⟨m.consensus_timestamp, m.sequence_number,
                      (lookupD fields "type").getD .jnull,
                      (lookupD fields "priority").getD .jnull,
                      (lookupD fields "data").getD .jnull,
                      (lookupD fields "metadata").getD .jnull,
                      m.running_hash⟩ :: l)
            | .error e => .error e
      | some _ => .error .attributeError

/-- `ConsensusManager.query_consensus_history` on an already-fetched
message list: the loop above, with any escaping exception re-wrapped by
the outer `except` as
`BlockchainError("Consensus history query failed: " + str(e))`. -/
def queryConsensusHistory (now : String) (topicId : String) (filterType : Option String)
    (msgs : List RawMessage) : Except PyErr HistoryResult :=
  match queryLoop filterType msgs with
  | .ok l => .ok ⟨topicId, filterType, l.length, l, now⟩
  | .error e => .error (.blockchainError ("Consensus history query failed: " ++ pyStr e))

/-- Spec-side restatement of C8's processing of one message (clearly
named, built from the claim's words). -/
def processedEntry (filterType : Option String) (m : RawMessage) : Option ProcessedMessage :=
  match m.contents with
  | some (.jobj fields) =>
      if pyTruthy filterType
          && !(isStr ((lookupD fields "type").getD .jnull) (filterType.getD "")) then none
      else
        some ⟨m.consensus_timestamp, m.sequence_number,
              (lookupD fields "type").getD .jnull,
              (lookupD fields "priority").getD .jnull,
              (lookupD fields "data").getD .jnull,
              (lookupD fields "metadata").getD .jnull,
              m.running_hash⟩
  | _ => none

/-- The inputs on which the query loop cannot hit an uncaught
`AttributeError`: each payload either fails JSON decoding or decodes to a
JSON object. -/
def queryMsgSafe (m : RawMessage) : Bool :=
  match m.contents with
  | none => true
  | some (.jobj _) => true
  | some _ => false

theorem queryLoop_spec (filterType : Option String) :
    ∀ msgs : List RawMessage,
    (∀ m ∈ msgs, queryMsgSafe m = true) →
    queryLoop filterType msgs = .ok (msgs.filterMap (processedEntry filterType)) := by
  intro msgs
  induction msgs with
  | nil => intro _; simp [queryLoop]
  | cons m rest ih =>
      intro h
      have hm : queryMsgSafe m = true := h m (List.mem_cons_self _ _)
      have hrest : ∀ x ∈ rest, queryMsgSafe x = true :=
        fun x hx => h x (List.mem_cons_of_mem _ hx)
      have hihres := ih hrest
      obtain ⟨mts, mseq, mrh, mc⟩ := m
      cases mc with
      | none => simp [queryLoop, hihres, List.filterMap_cons, processedEntry]
      | some v =>
          cases v with
          | jnull => simp [queryMsgSafe] at hm
          | jbool b => simp [queryMsgSafe] at hm
          | jstr s => simp [queryMsgSafe] at hm
          | jnum n => simp [queryMsgSafe] at hm
          | jobj fields =>
              by_cases hcond : (pyTruthy filterType
                  && !(isStr ((lookupD fields "type").getD .jnull) (filterType.getD ""))) = true
              · simp [queryLoop, hcond, hihres, List.filterMap_cons, processedEntry]
              · rw [Bool.not_eq_true] at hcond
                simp [queryLoop, hcond, hihres, List.filterMap_cons, processedEntry]

/-- A message whose payload is valid JSON but not an object. -/
def numPayloadMsg : RawMessage := ⟨"ts8", 8, some "ab", some (.jnum 42)⟩

/-- Counterexample for C8.  A message whose payload parses as JSON but is
not an object (here the number 42 — a payload that certainly cannot be
parsed as an envelope) does not get skipped: `content.get("type")` raises
`AttributeError`, which only the outer `except` catches, so the whole
query raises a wrapped `BlockchainError` instead of returning the
remaining messages. -/
theorem query_nonobject_fatal :
    queryConsensusHistory "t9" "0.0.30" none [numPayloadMsg]
      = .error (.blockchainError "Consensus history query failed: AttributeError") := rfl

/-- C8 (amended).  For every message list in which each payload either
fails JSON decoding or decodes to a JSON object, `query_consensus_history`
skips (with a logged warning) every message whose payload fails JSON
decoding, filters the decoded envelopes by type when a filter is given,
and returns the remainder in order, each carrying its sequence number and
running hash; a JSON-decode failure never makes the whole query raise.
(A payload that decodes to a non-object does make it raise, as
`query_nonobject_fatal` shows.) -/
theorem query_history_skips (now topicId : String) (filterType : Option String)
    (msgs : List RawMessage) (h : ∀ m ∈ msgs, queryMsgSafe m = true) :
    queryConsensusHistory now topicId filterType msgs
      = .ok ⟨topicId, filterType, (msgs.filterMap (processedEntry filterType)).length,
             msgs.filterMap (processedEntry filterType), now⟩ := by
  rw [queryConsensusHistory, queryLoop_spec filterType msgs h]

/-- A decoded waste-submission envelope. -/
def wasteEnvMsg : RawMessage :=
  ⟨"ts4", 4, some "aa", some (.jobj [("type", .jstr "waste_submission"),
    ("priority", .jstr "medium"), ("data", .jobj [("weight_kg", .jnum 2)])])⟩

/-- A decoded envelope of another type. -/
def otherEnvMsg : RawMessage :=
  ⟨"ts5", 5, some "bb", some (.jobj [("type", .jstr "audit_record")])⟩

/-- Witness for C8 (amended): the undecodable payload is skipped, the
filter keeps only the `waste_submission` envelope, and the entry carries
its sequence number and running hash. -/
theorem query_history_skips_witness :
    (∀ m ∈ [badPayloadMsg, wasteEnvMsg, otherEnvMsg], queryMsgSafe m = true)
    ∧ queryConsensusHistory "t9" "0.0.30" (some "waste_submission")
        [badPayloadMsg, wasteEnvMsg, otherEnvMsg]
      = .ok ⟨"0.0.30", some "waste_submission", 1,
             [⟨"ts4", 4, .jstr "waste_submission", .jstr "medium",
               .jobj [("weight_kg", .jnum 2)], .jnull, some "aa"⟩], "t9"⟩ :=
  ⟨by decide,
   query_history_skips "t9" "0.0.30" (some "waste_submission")
     [badPayloadMsg, wasteEnvMsg, otherEnvMsg] (by decide)⟩

end CircularityNexus
